import Mathlib

/-!
Verification development for the Telegraph-Image upload relay
(`functions/upload.js` and its webhook-enabled variant).

The JavaScript source is shallowly embedded below.  JS strings become
`String`, parsed JSON objects become structures with `Option` fields for
possibly-absent members, byte payloads are kept as opaque `String`s, and
the outbound HTTP client is abstracted by an oracle `Nat → FetchOutcome`
giving the outcome of the n-th `fetch` performed by one call chain.
JS truthiness on strings (only `""` is falsy) is modelled explicitly.
-/

namespace TelegraphImage

/-! ### JavaScript string primitives -/

/-- Character class of the JS regexp `\s` (also the set stripped by
`String.prototype.trim`): ECMA-262 WhiteSpace ∪ LineTerminator, i.e. TAB,
LF, VT, FF, CR, SP, NBSP, OGHAM SPACE MARK, the U+2000–U+200A spaces, LINE
SEPARATOR, PARAGRAPH SEPARATOR, NARROW NBSP, MEDIUM MATHEMATICAL SPACE,
IDEOGRAPHIC SPACE and ZWNBSP (U+FEFF). -/
def isJsSpace (c : Char) : Bool :=
  c = '\t' || c = '\n' || c = '\x0b' || c = '\x0c' || c = '\r' || c = ' ' ||
  c = '\u00A0' || c = '\u1680' || ('\u2000' ≤ c && c ≤ '\u200A') ||
  c = '\u2028' || c = '\u2029' || c = '\u202F' || c = '\u205F' ||
  c = '\u3000' || c = '\uFEFF'

/-- If `p` is a prefix of `l`, return the remainder of `l` after `p`. -/
def stripPrefixCh : List Char → List Char → Option (List Char)
  | [], l => some l
  | _ :: _, [] => none
  | p :: ps, c :: cs => if p = c then stripPrefixCh ps cs else none

/-- JS `s.startsWith(p)`. -/
def jsStartsWith (s p : String) : Bool :=
  (stripPrefixCh p.data s.data).isSome

/-- Does `needle` occur as a contiguous block inside `hay`? -/
def containsSub (hay needle : List Char) : Bool :=
  (stripPrefixCh needle hay).isSome ||
    match hay with
    | [] => false
    | _ :: t => containsSub t needle

/-- JS `s.includes(sub)`. -/
def jsIncludes (s sub : String) : Bool :=
  containsSub s.data sub.data

/-- JS `v || dflt` for a possibly-absent string `v`: the default is used when
`v` is absent (`undefined`) or the empty string (falsy). -/
def jsOrString (v : Option String) (dflt : String) : String :=
  match v with
  | some s => if s = "" then dflt else s
  | none => dflt

/-- JS `String.prototype.trim`: drop whitespace from both ends. -/
def jsTrim (s : String) : String :=
  ⟨((s.data.dropWhile isJsSpace).reverse.dropWhile isJsSpace).reverse⟩

/-- Lower-case hex digit for a value `< 16`. -/
def hexDigit (n : Nat) : Char :=
  if n < 10 then Char.ofNat ('0'.toNat + n) else Char.ofNat ('a'.toNat + n - 10)

/-- `JSON.stringify` escaping of one character. -/
def jsonEscapeChar (c : Char) : String :=
  if c = '"' then "\\\""
  else if c = '\\' then "\\\\"
  else if c = '\n' then "\\n"
  else if c = '\r' then "\\r"
  else if c = '\t' then "\\t"
  else if c = '\x08' then "\\b"
  else if c = '\x0c' then "\\f"
  else if c.toNat < 32 then
    "\\u00" ++ String.singleton (hexDigit (c.toNat / 16)) ++
      String.singleton (hexDigit (c.toNat % 16))
  else String.singleton c

/-- `JSON.stringify` of a string value, quotes included. -/
def jsonString (s : String) : String :=
  "\"" ++ s.data.foldl (fun acc c => acc ++ jsonEscapeChar c) "" ++ "\""

/-! ### Parsed Telegram API response (`responseData`) -/

/-- One entry of the `photo` array of a Telegram send result. -/
structure PhotoSize where
  file_id : String
  file_size : Nat
deriving DecidableEq

/-- A `document` / `video` / `audio` member of a Telegram send result. -/
structure TgFile where
  file_id : String
deriving DecidableEq

/-- The `result` member of a Telegram API response body. -/
structure TgResult where
  photo : Option (List PhotoSize) := none
  document : Option TgFile := none
  video : Option TgFile := none
  audio : Option TgFile := none
deriving DecidableEq

/-- A parsed Telegram API response body (`responseData`). -/
structure TgResponse where
  ok : Bool
  result : Option TgResult := none
  description : Option String := none
deriving DecidableEq

/-! ### `getFileId` -/

/-- The `reduce` callback chain of `getFileId`:
`photos.reduce((prev, current) => (prev.file_size > current.file_size) ? prev : current)`
with `p` the first array element and `l` the remaining ones. -/
def reducePhoto (p : PhotoSize) (l : List PhotoSize) : PhotoSize :=
  l.foldl (fun prev current =>
    if prev.file_size > current.file_size then prev else current) p

/-- `getFileId(response)`.  `Except.error` models the uncaught `TypeError`
thrown by `Array.prototype.reduce` on an empty array with no initial value
(an empty JS array is truthy, so `if (result.photo)` takes the branch);
`.ok none` models the function returning `null`. -/
def getFileId (response : TgResponse) : Except String (Option String) :=
  if !response.ok then .ok none else
  match response.result with
  | none => .ok none
  | some result =>
    match result.photo with
    | some [] => .error "Reduce of empty array with no initial value"
    | some (p :: rest) => .ok (some (reducePhoto p rest).file_id)
    | none =>
      match result.document with
      | some d => .ok (some d.file_id)
      | none =>
        match result.video with
        | some v => .ok (some v.file_id)
        | none =>
          match result.audio with
          | some a => .ok (some a.file_id)
          | none => .ok none

/-! ### `formatFileSize` -/

/-- JS `(b / d).toFixed(1)` for a natural `b` and a positive even divisor `d`
(here `d` is always a power of two, so the division `b / d` is exact in IEEE
doubles for `b < 2^53` and `toFixed` rounds the exact rational half-up,
which is `⌊(10 b + d / 2) / d⌋` tenths). -/
def toFixed1 (b d : Nat) : String :=
  let n := (10 * b + d / 2) / d
  toString (n / 10) ++ "." ++ toString (n % 10)

/-- `formatFileSize(bytes)` from `sendFileNotification`. -/
def formatFileSize (bytes : Nat) : String :=
  if bytes < 1024 then toString bytes ++ " B"
  else if bytes < 1024 * 1024 then toFixed1 bytes 1024 ++ " KB"
  else if bytes < 1024 * 1024 * 1024 then toFixed1 bytes (1024 * 1024) ++ " MB"
  else toFixed1 bytes (1024 * 1024 * 1024) ++ " GB"

/-! ### `sendToTelegram` -/

/-- Outcome of one `fetch` + `response.json()` on the send endpoint:
`ok` is a 2xx response with parsed body, `err` a non-2xx response with
parsed body, `throw` a transport failure (or a body that is not JSON). -/
inductive FetchOutcome where
  | ok (data : TgResponse)
  | err (data : TgResponse)
  | throw
deriving DecidableEq

/-- Return value of `sendToTelegram`:
`{success: true, data}` or `{success: false, error}`. -/
inductive SendResult where
  | success (data : TgResponse)
  | failure (error : String)
deriving DecidableEq

/-- A `FormData` object: an ordered list of key/value pairs, the payload of a
file kept as an opaque string of bytes. -/
abbrev FormData := List (String × String)

/-- `formData.get(k)`: the first value appended under key `k`, if any. -/
def fdGet (fd : FormData) (k : String) : Option String :=
  (fd.find? (fun p => p.1 = k)).map Prod.snd

/-- One outbound call of a `sendToTelegram` call chain, as observed by the
network: the endpoint, the form sent, whether this call was produced by the
photo-to-document fallback branch, and the outcome the oracle assigned. -/
structure CallRec where
  endpoint : String
  formData : FormData
  viaPhotoFallback : Bool
  outcome : FetchOutcome
deriving DecidableEq

/-- `const MAX_RETRIES = 2`. -/
def MAX_RETRIES : Nat := 2

/-- `sendToTelegram(formData, apiEndpoint, env, retryCount)`, instrumented:
`oracle idx` is the outcome of the `idx`-th fetch of the chain, and the
returned list records every call made (in order) together with its outcome.
`JSON` absence is rendered as the string `"null"` exactly as JS stringifies
a `null` form value. -/
def sendToTelegramAux (oracle : Nat → FetchOutcome) (formData : FormData)
    (apiEndpoint : String) (retryCount : Nat) (idx : Nat) (viaFallback : Bool) :
    SendResult × List CallRec :=
  let outcome := oracle idx
  let callRec : CallRec := ⟨apiEndpoint, formData, viaFallback, outcome⟩
  match outcome with
  | .ok data => (.success data, [callRec])
  | .err data =>
    if h : retryCount < MAX_RETRIES ∧ apiEndpoint = "sendPhoto" then
      let newFormData : FormData :=
        [("chat_id", (fdGet formData "chat_id").getD "null"),
         ("document", (fdGet formData "photo").getD "null")]
      let r := sendToTelegramAux oracle newFormData "sendDocument"
        (retryCount + 1) (idx + 1) true
      (r.1, callRec :: r.2)
    else
      (.failure (jsOrString data.description "Upload to Telegram failed"),
        [callRec])
  | .throw =>
    if h : retryCount < MAX_RETRIES then
      let r := sendToTelegramAux oracle formData apiEndpoint
        (retryCount + 1) (idx + 1) false
      (r.1, callRec :: r.2)
    else
      (.failure "Network error occurred", [callRec])
termination_by MAX_RETRIES + 1 - retryCount
decreasing_by
  all_goals simp only [MAX_RETRIES] at *
  all_goals omega

/-- `sendToTelegram(formData, apiEndpoint, env)` with the default
`retryCount = 0`. -/
def sendToTelegram (oracle : Nat → FetchOutcome) (formData : FormData)
    (apiEndpoint : String) : SendResult × List CallRec :=
  sendToTelegramAux oracle formData apiEndpoint 0 0 false

/-- The terminal failure message produced for a last call with the given
outcome (`responseData.description || 'Upload to Telegram failed'` for an
API-level failure, the fixed network string for a transport failure). -/
def failMsg : FetchOutcome → String
  | .ok _ => ""
  | .err data => jsOrString data.description "Upload to Telegram failed"
  | .throw => "Network error occurred"

/-! ### MIME classification (`onRequestPost` / `handleFileUpload`) -/

/-- The four upload kinds. -/
inductive UploadKind where
  | photo
  | audio
  | video
  | document
deriving DecidableEq

/-- The `if`/`else` chain on `uploadFile.type` choosing the upload kind. -/
def classifyFile (mimeType : String) : UploadKind :=
  if jsStartsWith mimeType "image/" then .photo
  else if jsStartsWith mimeType "audio/" then .audio
  else if jsStartsWith mimeType "video/" then .video
  else .document

/-- The form field the file is appended under for each kind. -/
def fieldKeyOf : UploadKind → String
  | .photo => "photo"
  | .audio => "audio"
  | .video => "video"
  | .document => "document"

/-- The API endpoint chosen for each kind. -/
def endpointOf : UploadKind → String
  | .photo => "sendPhoto"
  | .audio => "sendAudio"
  | .video => "sendVideo"
  | .document => "sendDocument"

/-! ### Notification message (`sendFileNotification`) -/

/-- `getFileIcon(type)` (webhook-enabled variant). -/
def getFileIcon (tp : String) : String :=
  if jsStartsWith tp "image/" then "🖼️"
  else if jsStartsWith tp "video/" then "🎬"
  else if jsStartsWith tp "audio/" then "🎵"
  else if jsIncludes tp "pdf" then "📄"
  else if jsIncludes tp "zip" || jsIncludes tp "rar" || jsIncludes tp "7z" then "📦"
  else "📎"

/-- The notification `message` template literal, trimmed exactly as the
source does (`.trim()` removes the leading newline and the trailing newline
plus four spaces of indentation). -/
def buildMessage (fileName : String) (fileSize : Nat)
    (fileId fileUrl fileType : String) : String :=
  jsTrim ("\n🎉 **文件上传成功！**\n\n"
    ++ getFileIcon fileType ++ " **文件名：** `" ++ fileName ++ "`\n"
    ++ "📏 **大小：** " ++ formatFileSize fileSize ++ "\n"
    ++ "🆔 **文件ID：** `" ++ fileId ++ "`\n"
    ++ "🔗 **访问链接：** [点击访问](" ++ fileUrl ++ ")\n\n"
    ++ "```\n" ++ fileUrl ++ "\n```\n\n"
    ++ "_通过 Telegraph-Image 上传_\n    ")

/-- An inline keyboard button: a URL button or a callback-data button. -/
inductive InlineButton where
  | urlButton (text url : String)
  | callbackButton (text data : String)
deriving DecidableEq

/-- The JSON body posted to `sendMessage` by `sendFileNotification`. -/
structure NotifRequest where
  chat_id : String
  text : String
  parse_mode : String
  disable_web_page_preview : Bool
  buttons : List InlineButton
deriving DecidableEq

/-- The environment bindings the functions read.  `img_url` is the optional
KV binding (an object, hence truthy exactly when configured). -/
structure Env where
  TG_Chat_ID : String := ""
  TG_Bot_Token : String := ""
  NOTIFICATION_CHAT_ID : Option String := none
  DISABLE_NOTIFICATION : Option String := none
  img_url : Bool := false
deriving DecidableEq

/-- `sendFileNotification(env, fileInfo)` (webhook-enabled variant), as the
list of `sendMessage` requests it issues: empty when the disable flag is the
string `'true'`, else exactly one request.  The function never throws — a
failed or throwing fetch is only logged — so no error outcome is modelled. -/
def sendFileNotification (env : Env) (fileName : String) (fileSize : Nat)
    (fileUrl fileType fileId : String) : List NotifRequest :=
  if env.DISABLE_NOTIFICATION = some "true" then []
  else
    [{ chat_id := jsOrString env.NOTIFICATION_CHAT_ID env.TG_Chat_ID
       text := buildMessage fileName fileSize fileId fileUrl fileType
       parse_mode := "Markdown"
       disable_web_page_preview := false
       buttons := [.urlButton "🔗 直接访问" fileUrl,
                   .callbackButton "📋 复制链接" "copy_link"] }]

/-! ### The webhook's URL extraction
The regexp `/```\n(https?:\/\/[^\s]+)\n```/` applied with
`messageText.match(urlRegex)`.  At a given start position the match is
deterministic: `https?` is greedy but the two schemes cannot both apply,
and `[^\s]+` takes the maximal run of non-whitespace characters — any
backtracked shorter run would have to be followed by `\n`, which is
whitespace and hence still inside the maximal run, a contradiction.  The
overall match is the leftmost one, modelled by scanning start positions
left to right. -/

/-- Try the full pattern anchored at the head of `l`; on success return the
capture group (scheme included). -/
def matchAt (l : List Char) : Option (List Char) :=
  match stripPrefixCh "```\n".data l with
  | none => none
  | some r1 =>
    let tryScheme (scheme : List Char) : Option (List Char) :=
      match stripPrefixCh scheme r1 with
      | none => none
      | some r2 =>
        let run := r2.takeWhile (fun c => !isJsSpace c)
        let r3 := r2.drop run.length
        if run ≠ [] ∧ (stripPrefixCh "\n```".data r3).isSome
        then some (scheme ++ run) else none
    match tryScheme "https://".data with
    | some u => some u
    | none => tryScheme "http://".data

/-- Leftmost match of the extraction pattern over the character list. -/
def extractUrlCh (l : List Char) : Option (List Char) :=
  match matchAt l with
  | some u => some u
  | none =>
    match l with
    | [] => none
    | _ :: t => extractUrlCh t

/-- `messageText.match(urlRegex)` followed by taking capture group 1
(the capture is non-empty whenever it exists, so the JS truthiness check
`match && match[1]` succeeds exactly when the pattern matches). -/
def extractUrl (s : String) : Option String :=
  (extractUrlCh s.data).map (fun cs => ⟨cs⟩)

/-! ### `handleTelegramWebhook` -/

/-- The inbound webhook body, after `request.json()`:
`parseError` models a body that is not JSON (the promise rejects);
`noCallback` a JSON body without a truthy `callback_query`;
`callback id data messageText` a body with a `callback_query`, where
`data = none` models an absent `data` member and `messageText = none`
models an absent `message` or an absent `message.text` (either way the
copy-link branch throws a `TypeError` when it dereferences them). -/
inductive WebhookBody where
  | parseError
  | noCallback
  | callback (id : String) (data : Option String) (messageText : Option String)
deriving DecidableEq

/-- The `answerCallbackQuery` JSON body. -/
structure AnswerCall where
  callback_query_id : String
  text : String
  show_alert : Bool
deriving DecidableEq

/-- What the webhook handler produced: the HTTP response returned to the
platform plus the `answerCallbackQuery` calls attempted. -/
structure WebhookResult where
  status : Nat
  body : String
  answerCalls : List AnswerCall
deriving DecidableEq

/-- `handleTelegramWebhook(context)`.  `answerThrows` is the outcome of the
`answerCallbackQuery` fetch (`true` = the awaited fetch throws, which the
surrounding `try` turns into the 500 response; the call was still made). -/
def handleTelegramWebhook (body : WebhookBody) (answerThrows : Bool) :
    WebhookResult :=
  match body with
  | .parseError => ⟨500, "Error handling webhook", []⟩
  | .noCallback => ⟨200, "OK", []⟩
  | .callback id data messageText =>
    if data = some "copy_link" then
      match messageText with
      | none => ⟨500, "Error handling webhook", []⟩
      | some text =>
        let alertText :=
          match extractUrl text with
          | some url => "链接已准备好，请粘贴！\n\n" ++ url
          | none => "无法找到链接。"
        let call : AnswerCall := ⟨id, alertText, true⟩
        if answerThrows then ⟨500, "Error handling webhook", [call]⟩
        else ⟨200, "OK", [call]⟩
    else ⟨200, "OK", []⟩

/-! ### `handleFileUpload` / `onRequestPost` (upload path) -/

/-- The uploaded `File` object. -/
structure UploadedFile where
  name : String
  type : String
  size : Nat
  content : String
deriving DecidableEq

/-- `fileName.split('.').pop().toLowerCase()` (`String.toLower`, ASCII —
no claim exercises non-ASCII case mapping). -/
def fileExtensionOf (name : String) : String :=
  ((name.splitOn ".").getLastD "").toLower

/-- What one upload request produced: the HTTP response to the uploader,
the KV keys written, and the notification requests issued. -/
structure UploadResult where
  status : Nat
  body : String
  kvPuts : List String
  notifRequests : List NotifRequest
deriving DecidableEq

/-- `500` response body `JSON.stringify({error: message})`. -/
def jsonError (message : String) : String :=
  "\x7b\"error\":" ++ jsonString message ++ "\x7d"

/-- The upload path of `onRequestPost` / `handleFileUpload`.  `origin` is
`new URL(request.url).origin`; `file` is `formData.get('file')`; `oracle`
drives the `sendToTelegram` fetches.  The `catch` block mapping any thrown
error to a 500 JSON body is folded into each error branch. -/
def handleFileUpload (env : Env) (origin : String) (file : Option UploadedFile)
    (oracle : Nat → FetchOutcome) : UploadResult :=
  match file with
  | none => ⟨500, jsonError "No file uploaded", [], []⟩
  | some uploadFile =>
    let fileName := uploadFile.name
    let fileExtension := fileExtensionOf fileName
    let kind := classifyFile uploadFile.type
    let telegramFormData : FormData :=
      [("chat_id", env.TG_Chat_ID), (fieldKeyOf kind, uploadFile.content)]
    match (sendToTelegram oracle telegramFormData (endpointOf kind)).1 with
    | .failure err => ⟨500, jsonError err, [], []⟩
    | .success data =>
      match getFileId data with
      | .error e => ⟨500, jsonError e, [], []⟩
      | .ok fid =>
        -- `if (!fileId) throw ...`: null and the empty string are falsy
        if fid = none ∨ fid = some "" then
          ⟨500, jsonError "Failed to get file ID", [], []⟩
        else
          let fileId := fid.getD ""
          let fileUrl := "/file/" ++ fileId ++ "." ++ fileExtension
          let fullUrl := origin ++ fileUrl
          let kvPuts := if env.img_url then [fileId ++ "." ++ fileExtension] else []
          let notifs := sendFileNotification env fileName uploadFile.size
            fullUrl uploadFile.type fileId
          ⟨200, "[\x7b\"src\":" ++ jsonString fileUrl ++ "\x7d]", kvPuts, notifs⟩

/-! ## Helper lemmas -/

theorem stripPrefixCh_some {p : List Char} :
    ∀ {l r : List Char}, stripPrefixCh p l = some r → l = p ++ r := by
  induction p with
  | nil =>
    intro l r h
    simp [stripPrefixCh] at h
    simp [h]
  | cons a ps ih =>
    intro l r h
    cases l with
    | nil => simp [stripPrefixCh] at h
    | cons c cs =>
      simp only [stripPrefixCh] at h
      split at h
      · rename_i hac
        simp [hac, ih h]
      · cases h

theorem jsStartsWith_unique {s p q : String}
    (hl : p.data.length = q.data.length)
    (hp : jsStartsWith s p = true) (hq : jsStartsWith s q = true) :
    p.data = q.data := by
  unfold jsStartsWith at hp hq
  obtain ⟨r1, h1⟩ := Option.isSome_iff_exists.mp hp
  obtain ⟨r2, h2⟩ := Option.isSome_iff_exists.mp hq
  have e1 := stripPrefixCh_some h1
  have e2 := stripPrefixCh_some h2
  exact (List.append_inj (e1 ▸ e2) hl).1

/-- If some element of `l` fails `p`, `dropWhile p` cannot consume all of
`l`. -/
theorem dropWhile_not_isEmpty {α : Type} {p : α → Bool} :
    ∀ {l : List α}, (∃ c ∈ l, p c = false) → (List.dropWhile p l).isEmpty = false := by
  intro l h
  induction l with
  | nil => simp at h
  | cons a t ih =>
    obtain ⟨c, hc, hpc⟩ := h
    rw [List.dropWhile_cons]
    by_cases hpa : p a = true
    · rw [if_pos hpa]
      apply ih
      rcases List.mem_cons.mp hc with h1 | h1
      · rw [h1] at hpc
        rw [hpc] at hpa
        cases hpa
      · exact ⟨c, h1, hpc⟩
    · rw [if_neg hpa]
      simp

theorem dropWhile_append_of_mem {α : Type} {p : α → Bool} {l1 l2 : List α}
    (h : ∃ c ∈ l1, p c = false) :
    List.dropWhile p (l1 ++ l2) = List.dropWhile p l1 ++ l2 := by
  rw [List.dropWhile_append, dropWhile_not_isEmpty h]
  simp

/-- Trimming cannot reach into the middle of a string: if a block `m` is
surrounded by contexts that each contain at least one non-whitespace
character, `jsTrim` preserves `m` intact. -/
theorem jsTrim_middle (s : String) (a m b : List Char)
    (hs : s.data = a ++ (m ++ b))
    (ha : ∃ c ∈ a, isJsSpace c = false)
    (hb : ∃ c ∈ b, isJsSpace c = false) :
    ∃ pre post, (jsTrim s).data = pre ++ (m ++ post) := by
  refine ⟨List.dropWhile isJsSpace a,
    (List.dropWhile isJsSpace b.reverse).reverse, ?_⟩
  have hb' : ∃ c ∈ b.reverse, isJsSpace c = false := by
    obtain ⟨c, hc, hpc⟩ := hb
    exact ⟨c, List.mem_reverse.mpr hc, hpc⟩
  show ((s.data.dropWhile isJsSpace).reverse.dropWhile isJsSpace).reverse = _
  rw [hs, dropWhile_append_of_mem ha]
  rw [show (List.dropWhile isJsSpace a ++ (m ++ b)).reverse
      = b.reverse ++ (m.reverse ++ (List.dropWhile isJsSpace a).reverse) by
    simp [List.reverse_append]]
  rw [dropWhile_append_of_mem hb']
  simp [List.reverse_append]

theorem stripPrefixCh_append_self :
    ∀ (p r : List Char), stripPrefixCh p (p ++ r) = some r := by
  intro p
  induction p with
  | nil => intro r; rfl
  | cons a t ih =>
    intro r
    simp [stripPrefixCh, ih]

theorem containsSub_here (m post : List Char) : containsSub (m ++ post) m = true := by
  unfold containsSub
  rw [stripPrefixCh_append_self]
  simp

theorem containsSub_append_left :
    ∀ (pre l n : List Char), containsSub l n = true → containsSub (pre ++ l) n = true := by
  intro pre
  induction pre with
  | nil =>
    intro l n h
    simpa using h
  | cons a t ih =>
    intro l n h
    show containsSub (a :: (t ++ l)) n = true
    unfold containsSub
    simp [ih l n h]

/-- The running maximum computed by the `reduce` callback is an element of
the array that attains the maximal `file_size`, and every element strictly
after it is strictly smaller (a tie advances the accumulator to `current`,
so the last maximal element wins). -/
theorem reducePhoto_decomp (l : List PhotoSize) (p : PhotoSize) :
    ∃ l1 l2, p :: l = l1 ++ reducePhoto p l :: l2 ∧
      (∀ x ∈ p :: l, x.file_size ≤ (reducePhoto p l).file_size) ∧
      (∀ y ∈ l2, y.file_size < (reducePhoto p l).file_size) := by
  induction l generalizing p with
  | nil =>
    refine ⟨[], [], by simp [reducePhoto], ?_, by simp⟩
    intro x hx
    simp only [List.mem_singleton] at hx
    simp [hx, reducePhoto]
  | cons q l ih =>
    by_cases h : p.file_size > q.file_size
    · have hred : reducePhoto p (q :: l) = reducePhoto p l := by
        simp [reducePhoto, List.foldl_cons, if_pos h]
      obtain ⟨l1, l2, hdec, hub, hstrict⟩ := ih p
      cases l1 with
      | nil =>
        simp only [List.nil_append, List.cons.injEq] at hdec
        obtain ⟨hp, hl2⟩ := hdec
        refine ⟨[], q :: l, ?_, ?_, ?_⟩
        · simp [hred, ← hp]
        · intro x hx
          rw [hred]
          rcases List.mem_cons.mp hx with hxp | hx'
          · rw [hxp, ← hp]
          · rcases List.mem_cons.mp hx' with hxq | hxl
            · rw [hxq, ← hp]
              exact Nat.le_of_lt h
            · exact hub x (List.mem_cons_of_mem p hxl)
        · intro y hy
          rw [hred]
          rcases List.mem_cons.mp hy with hyq | hyl
          · rw [hyq, ← hp]
            exact h
          · rw [← hl2] at hstrict
            exact hstrict y hyl
      | cons a l1' =>
        simp only [List.cons_append, List.cons.injEq] at hdec
        refine ⟨p :: q :: l1', l2, ?_, ?_, ?_⟩
        · rw [hred]
          simpa using hdec.2
        · intro x hx
          rw [hred]
          rcases List.mem_cons.mp hx with hxp | hx'
          · rw [hxp]
            exact hub p (List.mem_cons_self p l)
          · rcases List.mem_cons.mp hx' with hxq | hxl
            · rw [hxq]
              exact Nat.le_trans (Nat.le_of_lt h) (hub p (List.mem_cons_self p l))
            · exact hub x (List.mem_cons_of_mem p hxl)
        · intro y hy
          rw [hred]
          exact hstrict y hy
    · have hred : reducePhoto p (q :: l) = reducePhoto q l := by
        simp [reducePhoto, List.foldl_cons, if_neg h]
      obtain ⟨l1, l2, hdec, hub, hstrict⟩ := ih q
      refine ⟨p :: l1, l2, ?_, ?_, ?_⟩
      · simp [hred, List.cons_append, ← hdec]
      · intro x hx
        rw [hred]
        rcases List.mem_cons.mp hx with hxp | hx'
        · rw [hxp]
          exact Nat.le_trans (Nat.le_of_not_lt h) (hub q (List.mem_cons_self q l))
        · exact hub x hx'
      · intro y hy
        rw [hred]
        exact hstrict y hy

/-! ## Claim C1 — file-id extraction from the `photo` array -/

/-- C1 counterexample: on the spec's own tie example
`photo = [{size:100,id:"a"},{size:100,id:"b"}]` the code returns `"b"`,
not `"a"`: the reduce keeps `prev` only under a strict `>`, so an exact tie
advances to `current` and the later entry wins. -/
theorem getFileId_tie_counterexample :
    getFileId ⟨true, some ⟨some [⟨"a", 100⟩, ⟨"b", 100⟩], none, none, none⟩, none⟩
      = .ok (some "b") ∧ ("b" : String) ≠ "a" := by
  constructor
  · rfl
  · decide

/-- C1 (amended): applied to a successful API response whose result contains
a non-empty `photo` array, `getFileId` returns the file id of an entry with
the largest `file_size`, and on an exact tie of sizes it returns the LATER
entry in the array (last-seen maximum: the strict `>` keeps `prev` only when
strictly larger, so every entry strictly after the returned one is strictly
smaller); in particular for `photo = [{size:100,id:"a"},{size:100,id:"b"}]`
it returns `"b"`. -/
theorem getFileId_last_seen_max :
    (∀ (resp : TgResponse) (r : TgResult) (p : PhotoSize) (l : List PhotoSize),
      resp.ok = true → resp.result = some r → r.photo = some (p :: l) →
      ∃ l1 x l2, p :: l = l1 ++ x :: l2 ∧
        getFileId resp = .ok (some x.file_id) ∧
        (∀ y ∈ p :: l, y.file_size ≤ x.file_size) ∧
        (∀ y ∈ l2, y.file_size < x.file_size)) ∧
    getFileId ⟨true, some ⟨some [⟨"a", 100⟩, ⟨"b", 100⟩], none, none, none⟩, none⟩
      = .ok (some "b") := by
  constructor
  · intro resp r p l hok hres hphoto
    obtain ⟨l1, l2, hdec, hub, hstrict⟩ := reducePhoto_decomp l p
    refine ⟨l1, reducePhoto p l, l2, hdec, ?_, hub, hstrict⟩
    simp [getFileId, hok, hres, hphoto]
  · rfl

/-- Witness for C1 at the spec example: the returned entry `"b"` attains the
maximal size 100 and everything after it is strictly smaller. -/
theorem getFileId_last_seen_max_witness :
    ∃ l1 x l2,
      [(⟨"a", 100⟩ : PhotoSize), ⟨"b", 100⟩] = l1 ++ x :: l2 ∧
      getFileId ⟨true, some ⟨some [⟨"a", 100⟩, ⟨"b", 100⟩], none, none, none⟩, none⟩
        = .ok (some x.file_id) ∧
      (∀ y ∈ [(⟨"a", 100⟩ : PhotoSize), ⟨"b", 100⟩], y.file_size ≤ x.file_size) ∧
      (∀ y ∈ l2, y.file_size < x.file_size) :=
  getFileId_last_seen_max.1 _ _ ⟨"a", 100⟩ [⟨"b", 100⟩] rfl rfl rfl

/-! ## Claim C10 — empty `photo` array throws -/

/-- C10: for a success-shaped response whose `result.photo` is an empty
array, `getFileId` throws (`reduce` of an empty array with no initial value
— an empty JS array is truthy, so the `photo` branch is taken) instead of
returning the defensive `null`; on every success-shaped response whose
`photo`, when present, is non-empty, it does return normally. -/
theorem getFileId_empty_photo_throws :
    (∀ (resp : TgResponse) (r : TgResult),
      resp.ok = true → resp.result = some r → r.photo = some [] →
      getFileId resp = .error "Reduce of empty array with no initial value") ∧
    (∀ resp : TgResponse,
      (∀ r, resp.result = some r → r.photo ≠ some []) →
      ∃ v, getFileId resp = .ok v) := by
  constructor
  · intro resp r hok hres hphoto
    simp [getFileId, hok, hres, hphoto]
  · intro resp hne
    rcases resp with ⟨ok, result, desc⟩
    cases ok
    · exact ⟨none, rfl⟩
    · rcases result with _ | ⟨photo, doc, vid, aud⟩
      · exact ⟨none, rfl⟩
      · rcases photo with _ | ⟨_ | ⟨p, rest⟩⟩
        · rcases doc with _ | d
          · rcases vid with _ | v
            · rcases aud with _ | a
              · exact ⟨none, rfl⟩
              · exact ⟨some a.file_id, rfl⟩
            · exact ⟨some v.file_id, rfl⟩
          · exact ⟨some d.file_id, rfl⟩
        · exact absurd rfl (hne ⟨some [], doc, vid, aud⟩ rfl)
        · exact ⟨some (reducePhoto p rest).file_id, rfl⟩

/-- Witness for C10: a concrete ok response with `photo = []` throws, and a
concrete ok response with a non-empty photo array returns normally. -/
theorem getFileId_empty_photo_throws_witness :
    getFileId ⟨true, some ⟨some [], none, none, none⟩, none⟩
      = .error "Reduce of empty array with no initial value" ∧
    ∃ v, getFileId ⟨true, some ⟨some [⟨"a", 1⟩], none, none, none⟩, none⟩ = .ok v :=
  ⟨getFileId_empty_photo_throws.1 _ ⟨some [], none, none, none⟩ rfl rfl rfl,
   getFileId_empty_photo_throws.2 _ (by intro r hr; cases hr; decide)⟩

/-! ## Claim C5 — MIME classification -/

/-- C5: the upload-kind classification is total, exhaustive and
deterministic: a MIME type starting with `image/` is classified `photo`,
`audio/` → `audio`, `video/` → `video`, and everything else — the empty
string included — is classified `document`; there is no error path (the
classifier is a total function). -/
theorem classifyFile_exhaustive :
    (∀ t : String,
      (jsStartsWith t "image/" = true → classifyFile t = .photo) ∧
      (jsStartsWith t "audio/" = true → classifyFile t = .audio) ∧
      (jsStartsWith t "video/" = true → classifyFile t = .video) ∧
      (jsStartsWith t "image/" = false → jsStartsWith t "audio/" = false →
        jsStartsWith t "video/" = false → classifyFile t = .document)) ∧
    classifyFile "" = .document := by
  constructor
  · intro t
    have himgaud : jsStartsWith t "audio/" = true → jsStartsWith t "image/" = false := by
      intro ha
      cases hi : jsStartsWith t "image/"
      · rfl
      · exact absurd (jsStartsWith_unique (by decide) hi ha) (by decide)
    have himgvid : jsStartsWith t "video/" = true → jsStartsWith t "image/" = false := by
      intro hv
      cases hi : jsStartsWith t "image/"
      · rfl
      · exact absurd (jsStartsWith_unique (by decide) hi hv) (by decide)
    have haudvid : jsStartsWith t "video/" = true → jsStartsWith t "audio/" = false := by
      intro hv
      cases ha : jsStartsWith t "audio/"
      · rfl
      · exact absurd (jsStartsWith_unique (by decide) ha hv) (by decide)
    refine ⟨?_, ?_, ?_, ?_⟩
    · intro h
      simp [classifyFile, h]
    · intro h
      simp [classifyFile, h, himgaud h]
    · intro h
      simp [classifyFile, h, himgvid h, haudvid h]
    · intro h1 h2 h3
      simp [classifyFile, h1, h2, h3]
  · decide

/-- Witness for C5 at concrete MIME types, one per branch. -/
theorem classifyFile_exhaustive_witness :
    classifyFile "image/png" = .photo ∧ classifyFile "audio/mpeg" = .audio ∧
    classifyFile "video/mp4" = .video ∧ classifyFile "application/pdf" = .document :=
  ⟨(classifyFile_exhaustive.1 "image/png").1 (by decide),
   (classifyFile_exhaustive.1 "audio/mpeg").2.1 (by decide),
   (classifyFile_exhaustive.1 "video/mp4").2.2.1 (by decide),
   (classifyFile_exhaustive.1 "application/pdf").2.2.2 (by decide) (by decide) (by decide)⟩

/-! ## Claim C6 — human-readable size formatting -/

/-- C6: `formatFileSize` uses binary (1024-based) thresholds: a byte count
below 1024 is rendered as `"<b> B>"` with no decimal, below 1 MiB as KB with
exactly one decimal digit, below 1 GiB as MB with one decimal digit, and
otherwise as GB with one decimal digit; in particular `0 → "0 B"`,
`1024 → "1.0 KB"`, `1048576 → "1.0 MB"`, `1073741824 → "1.0 GB"`. -/
theorem formatFileSize_spec :
    (∀ b : Nat,
      (b < 1024 → formatFileSize b = toString b ++ " B") ∧
      (1024 ≤ b → b < 1048576 →
        ∃ k r : Nat, r < 10 ∧
          formatFileSize b = toString k ++ "." ++ toString r ++ " KB") ∧
      (1048576 ≤ b → b < 1073741824 →
        ∃ k r : Nat, r < 10 ∧
          formatFileSize b = toString k ++ "." ++ toString r ++ " MB") ∧
      (1073741824 ≤ b →
        ∃ k r : Nat, r < 10 ∧
          formatFileSize b = toString k ++ "." ++ toString r ++ " GB")) ∧
    formatFileSize 0 = "0 B" ∧ formatFileSize 1024 = "1.0 KB" ∧
    formatFileSize 1048576 = "1.0 MB" ∧ formatFileSize 1073741824 = "1.0 GB" := by
  refine ⟨?_, by decide, by decide, by decide, by decide⟩
  intro b
  refine ⟨?_, ?_, ?_, ?_⟩
  · intro h
    simp only [formatFileSize]
    rw [if_pos h]
  · intro h1 h2
    refine ⟨(10 * b + 512) / 1024 / 10, (10 * b + 512) / 1024 % 10,
      Nat.mod_lt _ (by norm_num), ?_⟩
    simp only [formatFileSize, toFixed1]
    rw [if_neg (by omega), if_pos (by omega)]
  · intro h1 h2
    refine ⟨(10 * b + 524288) / 1048576 / 10, (10 * b + 524288) / 1048576 % 10,
      Nat.mod_lt _ (by norm_num), ?_⟩
    simp only [formatFileSize, toFixed1]
    rw [if_neg (by omega), if_neg (by omega), if_pos (by omega)]
  · intro h1
    refine ⟨(10 * b + 536870912) / 1073741824 / 10, (10 * b + 536870912) / 1073741824 % 10,
      Nat.mod_lt _ (by norm_num), ?_⟩
    simp only [formatFileSize, toFixed1]
    rw [if_neg (by omega), if_neg (by omega), if_neg (by omega)]

/-- Witness for C6 at `b = 2048` (KB branch). -/
theorem formatFileSize_spec_witness :
    ∃ k r : Nat, r < 10 ∧
      formatFileSize 2048 = toString k ++ "." ++ toString r ++ " KB" :=
  (formatFileSize_spec.1 2048).2.1 (by norm_num) (by norm_num)

/-! ## Claim C3 — bounded retry / termination -/

/-- C3: with `MAX_RETRIES = 2`, if the underlying HTTP call returns non-2xx
or throws on every attempt, the outbound client is invoked at most
`1 + MAX_RETRIES = 3` times in one call chain — the recorded call list has
length at most 3 — and `sendToTelegram` terminates returning a `Failure`. -/
theorem sendToTelegram_retry_bound (oracle : Nat → FetchOutcome)
    (fd : FormData) (ep : String)
    (hfail : ∀ n d, oracle n ≠ .ok d) :
    (sendToTelegram oracle fd ep).2.length ≤ 1 + MAX_RETRIES ∧
    ∃ m, (sendToTelegram oracle fd ep).1 = .failure m := by
  have h0 := hfail 0
  have h1 := hfail 1
  have h2 := hfail 2
  rcases o0 : oracle 0 with d0 | d0 | _
  · exact absurd o0 (h0 d0)
  · by_cases hep : ep = "sendPhoto"
    · subst hep
      rcases o1 : oracle 1 with d1 | d1 | _
      · exact absurd o1 (h1 d1)
      · simp [sendToTelegram, sendToTelegramAux, o0, o1, MAX_RETRIES]
      · rcases o2 : oracle 2 with d2 | d2 | _
        · exact absurd o2 (h2 d2)
        · simp [sendToTelegram, sendToTelegramAux, o0, o1, o2, MAX_RETRIES]
        · simp [sendToTelegram, sendToTelegramAux, o0, o1, o2, MAX_RETRIES]
    · simp [sendToTelegram, sendToTelegramAux, o0, hep, MAX_RETRIES]
  · rcases o1 : oracle 1 with d1 | d1 | _
    · exact absurd o1 (h1 d1)
    · by_cases hep : ep = "sendPhoto"
      · subst hep
        rcases o2 : oracle 2 with d2 | d2 | _
        · exact absurd o2 (h2 d2)
        · simp [sendToTelegram, sendToTelegramAux, o0, o1, o2, MAX_RETRIES]
        · simp [sendToTelegram, sendToTelegramAux, o0, o1, o2, MAX_RETRIES]
      · simp [sendToTelegram, sendToTelegramAux, o0, o1, hep, MAX_RETRIES]
    · rcases o2 : oracle 2 with d2 | d2 | _
      · exact absurd o2 (h2 d2)
      · by_cases hep : ep = "sendPhoto"
        · subst hep
          simp [sendToTelegram, sendToTelegramAux, o0, o1, o2, MAX_RETRIES]
        · simp [sendToTelegram, sendToTelegramAux, o0, o1, o2, hep, MAX_RETRIES]
      · simp [sendToTelegram, sendToTelegramAux, o0, o1, o2, MAX_RETRIES]

/-- Witness for C3: an always-throwing client is called exactly
`1 + MAX_RETRIES` times and the chain returns a failure. -/
theorem sendToTelegram_retry_bound_witness :
    (sendToTelegram (fun _ => .throw) [] "sendDocument").2.length ≤ 1 + MAX_RETRIES ∧
    ∃ m, (sendToTelegram (fun _ => .throw) [] "sendDocument").1 = .failure m :=
  sendToTelegram_retry_bound (fun _ => .throw) [] "sendDocument"
    (fun _ _ h => FetchOutcome.noConfusion h)

/-! ## Claim C4 — photo-to-document fallback -/

/-- C4: a `photo` upload (`sendPhoto`) whose first attempt receives a
non-2xx API response triggers exactly one follow-up call with endpoint
`sendDocument` carrying the identical binary content under the `document`
field and the same chat id; the fallback branch never fires again in the
same chain (exactly one recorded call is marked as fallback-generated, and
every call after the first uses `sendDocument`, never `sendPhoto`). -/
theorem sendToTelegram_photo_fallback (oracle : Nat → FetchOutcome)
    (fd : FormData) (chat blob : String) (d0 : TgResponse)
    (hchat : fdGet fd "chat_id" = some chat)
    (hphoto : fdGet fd "photo" = some blob)
    (h0 : oracle 0 = .err d0) :
    ∃ c1, (sendToTelegram oracle fd "sendPhoto").2[1]? = some c1 ∧
      c1.endpoint = "sendDocument" ∧ c1.viaPhotoFallback = true ∧
      fdGet c1.formData "document" = some blob ∧
      fdGet c1.formData "chat_id" = some chat ∧
      (sendToTelegram oracle fd "sendPhoto").2.countP
        (fun c => c.viaPhotoFallback) = 1 ∧
      ∀ c ∈ (sendToTelegram oracle fd "sendPhoto").2.tail,
        c.endpoint = "sendDocument" := by
  have hnewfd :
      ([("chat_id", (fdGet fd "chat_id").getD "null"),
        ("document", (fdGet fd "photo").getD "null")] : FormData)
      = [("chat_id", chat), ("document", blob)] := by
    rw [hchat, hphoto]
    rfl
  rcases o1 : oracle 1 with d1 | d1 | _
  · have htr : (sendToTelegram oracle fd "sendPhoto").2 =
        [⟨"sendPhoto", fd, false, .err d0⟩,
         ⟨"sendDocument", [("chat_id", chat), ("document", blob)], true, .ok d1⟩] := by
      simp [sendToTelegram, sendToTelegramAux, h0, o1, MAX_RETRIES, hnewfd]
    rw [htr]
    refine ⟨_, rfl, rfl, rfl, ?_, ?_, ?_, ?_⟩
    · simp [fdGet, List.find?]
    · simp [fdGet, List.find?]
    · simp [List.countP_cons]
    · simp
  · have htr : (sendToTelegram oracle fd "sendPhoto").2 =
        [⟨"sendPhoto", fd, false, .err d0⟩,
         ⟨"sendDocument", [("chat_id", chat), ("document", blob)], true, .err d1⟩] := by
      simp [sendToTelegram, sendToTelegramAux, h0, o1, MAX_RETRIES, hnewfd]
    rw [htr]
    refine ⟨_, rfl, rfl, rfl, ?_, ?_, ?_, ?_⟩
    · simp [fdGet, List.find?]
    · simp [fdGet, List.find?]
    · simp [List.countP_cons]
    · simp
  · have htr : (sendToTelegram oracle fd "sendPhoto").2 =
        [⟨"sendPhoto", fd, false, .err d0⟩,
         ⟨"sendDocument", [("chat_id", chat), ("document", blob)], true, .throw⟩,
         ⟨"sendDocument", [("chat_id", chat), ("document", blob)], false, oracle 2⟩] := by
      rcases o2 : oracle 2 with d2 | d2 | _ <;>
        simp [sendToTelegram, sendToTelegramAux, h0, o1, o2, MAX_RETRIES, hnewfd]
    rw [htr]
    refine ⟨_, rfl, rfl, rfl, ?_, ?_, ?_, ?_⟩
    · simp [fdGet, List.find?]
    · simp [fdGet, List.find?]
    · simp [List.countP_cons]
    · simp

/-- Witness for C4: a concrete chain whose first attempt is rejected. -/
theorem sendToTelegram_photo_fallback_witness :
    ∃ c1, (sendToTelegram (fun _ => .err ⟨false, none, none⟩)
        [("chat_id", "42"), ("photo", "BYTES")] "sendPhoto").2[1]? = some c1 ∧
      c1.endpoint = "sendDocument" ∧ c1.viaPhotoFallback = true ∧
      fdGet c1.formData "document" = some "BYTES" ∧
      fdGet c1.formData "chat_id" = some "42" ∧
      (sendToTelegram (fun _ => .err ⟨false, none, none⟩)
        [("chat_id", "42"), ("photo", "BYTES")] "sendPhoto").2.countP
          (fun c => c.viaPhotoFallback) = 1 ∧
      ∀ c ∈ (sendToTelegram (fun _ => .err ⟨false, none, none⟩)
          [("chat_id", "42"), ("photo", "BYTES")] "sendPhoto").2.tail,
        c.endpoint = "sendDocument" :=
  sendToTelegram_photo_fallback (fun _ => .err ⟨false, none, none⟩)
    [("chat_id", "42"), ("photo", "BYTES")] "42" "BYTES" ⟨false, none, none⟩
    (by decide) (by decide) rfl

/-! ## Claim C7 — terminal failure messages and immediate success -/

/-- C7 counterexample: an API-level failure whose `description` field is
present but empty yields the generic upload-failed message, not the
description — the code tests JS truthiness (`description || generic`),
not presence. -/
theorem sendToTelegram_description_counterexample :
    (sendToTelegram (fun _ => .err ⟨false, none, some ""⟩) [] "sendDocument").1
      = .failure "Upload to Telegram failed" ∧
    (⟨false, none, some ""⟩ : TgResponse).description = some "" ∧
    "Upload to Telegram failed" ≠ "" := by
  refine ⟨?_, rfl, by decide⟩
  simp [sendToTelegram, sendToTelegramAux, MAX_RETRIES, jsOrString]

/-- C7 (amended): after retries are exhausted, `sendToTelegram` returns a
`Failure` whose message is the API response's `description` field when that
field is present AND non-empty (JS truthiness: an empty-string description
falls back), else the generic upload-failed string for API-level (non-2xx)
failures, and the network-error string for transport failures; a 2xx
response at any attempt returns `Success` with the parsed body immediately
— every recorded call except the last has a non-2xx-or-throw outcome. -/
theorem sendToTelegram_terminal_messages (oracle : Nat → FetchOutcome)
    (fd : FormData) (ep : String) :
    (∀ c ∈ (sendToTelegram oracle fd ep).2.dropLast, ∀ d, c.outcome ≠ .ok d) ∧
    (∀ d, (sendToTelegram oracle fd ep).1 = .success d ↔
      ∃ last, (sendToTelegram oracle fd ep).2.getLast? = some last ∧
        last.outcome = .ok d) ∧
    (∀ m, (sendToTelegram oracle fd ep).1 = .failure m ↔
      ∃ last, (sendToTelegram oracle fd ep).2.getLast? = some last ∧
        (∀ d, last.outcome ≠ .ok d) ∧ m = failMsg last.outcome) := by
  rcases o0 : oracle 0 with d0 | d0 | _
  · simp [sendToTelegram, sendToTelegramAux, o0, MAX_RETRIES, failMsg, eq_comm]
  · by_cases hep : ep = "sendPhoto"
    · subst hep
      rcases o1 : oracle 1 with d1 | d1 | _
      · simp [sendToTelegram, sendToTelegramAux, o0, o1, MAX_RETRIES, failMsg, eq_comm]
      · simp [sendToTelegram, sendToTelegramAux, o0, o1, MAX_RETRIES, failMsg, eq_comm]
      · rcases o2 : oracle 2 with d2 | d2 | _ <;>
          simp [sendToTelegram, sendToTelegramAux, o0, o1, o2, MAX_RETRIES,
            failMsg, eq_comm]
    · simp [sendToTelegram, sendToTelegramAux, o0, hep, MAX_RETRIES, failMsg, eq_comm]
  · rcases o1 : oracle 1 with d1 | d1 | _
    · simp [sendToTelegram, sendToTelegramAux, o0, o1, MAX_RETRIES, failMsg, eq_comm]
    · by_cases hep : ep = "sendPhoto"
      · subst hep
        rcases o2 : oracle 2 with d2 | d2 | _ <;>
          simp [sendToTelegram, sendToTelegramAux, o0, o1, o2, MAX_RETRIES,
            failMsg, eq_comm]
      · simp [sendToTelegram, sendToTelegramAux, o0, o1, hep, MAX_RETRIES,
          failMsg, eq_comm]
    · rcases o2 : oracle 2 with d2 | d2 | _
      · simp [sendToTelegram, sendToTelegramAux, o0, o1, o2, MAX_RETRIES,
          failMsg, eq_comm]
      · by_cases hep : ep = "sendPhoto"
        · subst hep
          simp [sendToTelegram, sendToTelegramAux, o0, o1, o2, MAX_RETRIES,
            failMsg, eq_comm]
        · simp [sendToTelegram, sendToTelegramAux, o0, o1, o2, hep, MAX_RETRIES,
            failMsg, eq_comm]
      · simp [sendToTelegram, sendToTelegramAux, o0, o1, o2, MAX_RETRIES,
          failMsg, eq_comm]

/-- Witness for C7: the non-empty description of the last response is
surfaced as the terminal failure message. -/
theorem sendToTelegram_terminal_messages_witness :
    (sendToTelegram (fun _ => .err ⟨false, none, some "flood"⟩) [] "sendDocument").1
      = .failure "flood" := by
  refine ((sendToTelegram_terminal_messages
    (fun _ => .err ⟨false, none, some "flood"⟩) [] "sendDocument").2.2 "flood").mpr
    ⟨⟨"sendDocument", [], false, .err ⟨false, none, some "flood"⟩⟩, ?_, ?_, ?_⟩
  · simp [sendToTelegram, sendToTelegramAux, MAX_RETRIES]
  · intro d h
    cases h
  · decide

/-! ## Claim C2 — notification message / webhook extraction round trip -/

/-- C2 counterexample: for the spec's example `fileUrl = "/file/abc.png"`
the composed message does embed a literal block containing exactly that
string, but the webhook's extraction pattern requires an `http(s)://`
scheme, so it does not recover `"/file/abc.png"` — the round trip fails on
a relative URL. -/
theorem notification_roundtrip_counterexample :
    containsSub (buildMessage "abc.png" 10 "id1" "/file/abc.png" "image/png").data
      ("```\n" ++ "/file/abc.png" ++ "\n```").data = true ∧
    extractUrl (buildMessage "abc.png" 10 "id1" "/file/abc.png" "image/png")
      ≠ some "/file/abc.png" := by
  constructor
  · decide
  · decide

/-- C2 (amended): for every `fileName`, `fileSize`, `fileId`, `fileUrl` and
`fileType`, the composed notification message embeds a literal code block
containing exactly the `fileUrl` string (the block sits strictly inside the
template, so `trim` cannot reach it).  The webhook's extraction pattern
recovers the `fileUrl` unchanged for the absolute `http(s)` URL the upload
handler actually passes (`origin + "/file/..."`), proved at the spec's
scenario (`fileName "abc.png"`, size 10, id `"id1"`,
`fileUrl "https://example.com/file/abc.png"`).  Recovery does not hold for
the relative example `"/file/abc.png"` (the pattern requires a scheme —
the counterexample above), and it cannot hold universally over all
absolute `fileUrl`s either, because other message fields (the
attacker-controlled file name, say) can inject an earlier literal block
that the regexp's leftmost match prefers. -/
theorem notification_roundtrip_absolute :
    (∀ (fileName : String) (fileSize : Nat) (fileId fileUrl fileType : String),
      containsSub (buildMessage fileName fileSize fileId fileUrl fileType).data
        ("```\n" ++ fileUrl ++ "\n```").data = true) ∧
    extractUrl (buildMessage "abc.png" 10 "id1"
      "https://example.com/file/abc.png" "image/png")
      = some "https://example.com/file/abc.png" := by
  constructor
  · intro fileName fileSize fileId fileUrl fileType
    have hsplit : ("\n```\n\n" : String).data
        = ("\n```" : String).data ++ ("\n\n" : String).data := by decide
    simp only [String.data_append] at hsplit
    obtain ⟨pre, post, heq⟩ := jsTrim_middle
      ("\n🎉 **文件上传成功！**\n\n"
        ++ getFileIcon fileType ++ " **文件名：** `" ++ fileName ++ "`\n"
        ++ "📏 **大小：** " ++ formatFileSize fileSize ++ "\n"
        ++ "🆔 **文件ID：** `" ++ fileId ++ "`\n"
        ++ "🔗 **访问链接：** [点击访问](" ++ fileUrl ++ ")\n\n"
        ++ "```\n" ++ fileUrl ++ "\n```\n\n"
        ++ "_通过 Telegraph-Image 上传_\n    ")
      (("\n🎉 **文件上传成功！**\n\n" : String).data
        ++ (getFileIcon fileType).data ++ (" **文件名：** `" : String).data
        ++ fileName.data ++ ("`\n" : String).data
        ++ ("📏 **大小：** " : String).data ++ (formatFileSize fileSize).data
        ++ ("\n" : String).data ++ ("🆔 **文件ID：** `" : String).data
        ++ fileId.data ++ ("`\n" : String).data
        ++ ("🔗 **访问链接：** [点击访问](" : String).data
        ++ fileUrl.data ++ (")\n\n" : String).data)
      (("```\n" : String).data ++ fileUrl.data ++ ("\n```" : String).data)
      (("\n\n" : String).data
        ++ ("_通过 Telegraph-Image 上传_\n    " : String).data)
      (by simp only [String.data_append, hsplit, List.append_assoc])
      ⟨')', List.mem_append_right _ (by decide), by decide⟩
      (by decide)
    show containsSub (jsTrim _).data _ = true
    rw [heq]
    rw [show ("```\n" ++ fileUrl ++ "\n```").data
        = ("```\n" : String).data ++ fileUrl.data ++ ("\n```" : String).data by
      simp only [String.data_append]]
    exact containsSub_append_left pre _ _ (containsSub_here _ post)
  · decide

/-! ## Claim C8 — disable-notification flag is a pure frame condition -/

/-- C8: with the disable-notification setting on (`'true'`), no outbound
notification request is issued, and the upload handler's response to the
caller — status, body and KV writes — is identical to the run with
notifications enabled; on a successful upload the response is still `200`
with the same body (concrete anchor below: a 10-byte `image/png` upload
against an always-succeeding client returns `200` and no notification). -/
theorem disable_notification_frame :
    (∀ (env : Env) (origin : String) (file : Option UploadedFile)
        (oracle : Nat → FetchOutcome),
      (handleFileUpload { env with DISABLE_NOTIFICATION := some "true" }
        origin file oracle).notifRequests = [] ∧
      (handleFileUpload { env with DISABLE_NOTIFICATION := some "true" }
        origin file oracle).status
        = (handleFileUpload { env with DISABLE_NOTIFICATION := none }
            origin file oracle).status ∧
      (handleFileUpload { env with DISABLE_NOTIFICATION := some "true" }
        origin file oracle).body
        = (handleFileUpload { env with DISABLE_NOTIFICATION := none }
            origin file oracle).body ∧
      (handleFileUpload { env with DISABLE_NOTIFICATION := some "true" }
        origin file oracle).kvPuts
        = (handleFileUpload { env with DISABLE_NOTIFICATION := none }
            origin file oracle).kvPuts) ∧
    (handleFileUpload ⟨"c", "", none, some "true", false⟩ "https://e.com"
      (some ⟨"a.png", "image/png", 10, "B"⟩)
      (fun _ => .ok ⟨true, some ⟨some [⟨"id1", 5⟩], none, none, none⟩, none⟩)).status
      = 200 ∧
    (handleFileUpload ⟨"c", "", none, some "true", false⟩ "https://e.com"
      (some ⟨"a.png", "image/png", 10, "B"⟩)
      (fun _ => .ok ⟨true, some ⟨some [⟨"id1", 5⟩], none, none, none⟩,
        none⟩)).notifRequests = [] := by
  have hconc :
      (handleFileUpload ⟨"c", "", none, some "true", false⟩ "https://e.com"
        (some ⟨"a.png", "image/png", 10, "B"⟩)
        (fun _ => .ok ⟨true, some ⟨some [⟨"id1", 5⟩], none, none, none⟩, none⟩)).status
        = 200 ∧
      (handleFileUpload ⟨"c", "", none, some "true", false⟩ "https://e.com"
        (some ⟨"a.png", "image/png", 10, "B"⟩)
        (fun _ => .ok ⟨true, some ⟨some [⟨"id1", 5⟩], none, none, none⟩,
          none⟩)).notifRequests = [] := by
    have hsend : (sendToTelegram
        (fun _ => .ok ⟨true, some ⟨some [⟨"id1", 5⟩], none, none, none⟩, none⟩)
        [("chat_id", "c"), ("photo", "B")] "sendPhoto").1
        = .success ⟨true, some ⟨some [⟨"id1", 5⟩], none, none, none⟩, none⟩ := by
      simp [sendToTelegram, sendToTelegramAux]
    have hk : classifyFile "image/png" = .photo := by decide
    have hg : getFileId ⟨true, some ⟨some [⟨"id1", 5⟩], none, none, none⟩, none⟩
        = .ok (some "id1") := rfl
    simp [handleFileUpload, hk, fieldKeyOf, endpointOf, hsend, hg,
      sendFileNotification]
  refine ⟨?_, hconc.1, hconc.2⟩
  intro env origin file oracle
  rcases env with ⟨chat, tok, nchat, dis, img⟩
  rcases file with _ | f
  · exact ⟨rfl, rfl, rfl, rfl⟩
  · simp only [handleFileUpload]
    rcases hs : (sendToTelegram oracle
        [("chat_id", chat), (fieldKeyOf (classifyFile f.type), f.content)]
        (endpointOf (classifyFile f.type))).1 with data | e
    · rcases hg : getFileId data with e | fid
      · simp [hg]
      · by_cases hf : fid = none ∨ fid = some ""
        · simp [hg, hf]
        · simp [hg, hf, sendFileNotification]
    · simp

/-! ## Claim C9 — webhook handler behaviour -/

/-- C9 counterexample: a well-formed JSON callback whose `callback_query`
data equals the token but whose message text is absent makes the handler
throw (`TypeError` on `callbackQuery.message.text` / `.match`), caught into
a `500` with no callback answered — contradicting the claim that every
token-matching callback is answered with an alert. -/
theorem webhook_missing_text_counterexample :
    (handleTelegramWebhook (.callback "q1" (some "copy_link") none)
      false).answerCalls = [] ∧
    (handleTelegramWebhook (.callback "q1" (some "copy_link") none)
      false).status = 500 ∧
    (500 : Nat) ≠ 200 := by
  exact ⟨rfl, rfl, by decide⟩

/-- C9 (amended): a JSON parse failure yields status 500 with a plain-text
body; a JSON body with no `callback_query`, or one whose data differs from
the fixed token `copy_link`, is a no-op answered `200 OK`; a token-matching
callback carrying a message text is answered with a pop-up alert
(`show_alert = true`) whose text contains the URL extracted from the
message's literal block, or the fallback link-not-found message when the
pattern does not match; but a token-matching callback whose message or text
is absent throws inside the handler and yields the 500 plain-text response
with no callback answered. -/
theorem webhook_behavior :
    (∀ t, handleTelegramWebhook .parseError t
      = ⟨500, "Error handling webhook", []⟩) ∧
    (∀ t, handleTelegramWebhook .noCallback t = ⟨200, "OK", []⟩) ∧
    (∀ id dat mt t, dat ≠ some "copy_link" →
      handleTelegramWebhook (.callback id dat mt) t = ⟨200, "OK", []⟩) ∧
    (∀ id text t, ∃ alertText,
      (handleTelegramWebhook (.callback id (some "copy_link") (some text))
        t).answerCalls = [⟨id, alertText, true⟩] ∧
      ((∃ url p, extractUrl text = some url ∧ alertText = p ++ url) ∨
       (extractUrl text = none ∧ alertText = "无法找到链接。"))) ∧
    (∀ id t, handleTelegramWebhook (.callback id (some "copy_link") none) t
      = ⟨500, "Error handling webhook", []⟩) := by
  refine ⟨fun t => rfl, fun t => rfl, ?_, ?_, fun id t => rfl⟩
  · intro id dat mt t h
    simp [handleTelegramWebhook, h]
  · intro id text t
    rcases hx : extractUrl text with _ | url
    · refine ⟨"无法找到链接。", ?_, Or.inr ⟨rfl, rfl⟩⟩
      cases t <;> simp [handleTelegramWebhook, hx]
    · refine ⟨"链接已准备好，请粘贴！\n\n" ++ url, ?_,
        Or.inl ⟨url, "链接已准备好，请粘贴！\n\n", rfl, rfl⟩⟩
      cases t <;> simp [handleTelegramWebhook, hx]

/-- Witness for C9: a token-matching callback over a message containing an
absolute URL in its literal block is answered with an alert containing the
URL, and a callback with different data is a no-op 200. -/
theorem webhook_behavior_witness :
    (∃ alertText,
      (handleTelegramWebhook (.callback "q1" (some "copy_link")
          (some "```\nhttps://e.com/file/a.png\n```")) false).answerCalls
        = [⟨"q1", alertText, true⟩] ∧
      ((∃ url p, extractUrl "```\nhttps://e.com/file/a.png\n```" = some url ∧
          alertText = p ++ url) ∨
       (extractUrl "```\nhttps://e.com/file/a.png\n```" = none ∧
          alertText = "无法找到链接。"))) ∧
    handleTelegramWebhook (.callback "q2" (some "copy_12345") none) true
      = ⟨200, "OK", []⟩ :=
  ⟨(webhook_behavior.2.2.2.1 "q1" "```\nhttps://e.com/file/a.png\n```" false),
   (webhook_behavior.2.2.1 "q2" (some "copy_12345") none true (by decide))⟩

end TelegraphImage
